import Mathlib

/-!
Verification of the Frida Android host-discovery and provisioning layer
(`frida-hosts.ts` and the `FridaAndroidInterceptor` façade).

External collaborators (the adb device-bridge client, the Frida session
client) are modelled as oracles: each fallible collaborator call is an
`Except String _` outcome supplied as input, and boolean privilege probes
are supplied as booleans. Pure control flow is translated directly from
the source.
-/

namespace Frida

/-- The four discrete host states of `FridaHost['state']`. -/
inductive FridaState
  | unavailable
  | setupRequired
  | launchRequired
  | available
deriving DecidableEq, Repr

/-- `FridaTarget`: a single app that can be intercepted. -/
structure FridaTarget where
  id : String
  name : String
deriving DecidableEq, Repr

/-- `FridaHost`: a device which may contain 1+ Frida targets. -/
structure FridaHost where
  id : String
  name : String
  type : String
  state : FridaState
  targets : Option (List FridaTarget) := none
deriving DecidableEq, Repr

def FRIDA_DEFAULT_PORT : Nat := 27042

def FRIDA_ALTERNATE_PORT : Nat := 24072

def ANDROID_DEVICE_HTK_PATH : String := "/data/local/tmp/.httptoolkit"

def FRIDA_BINARY_NAME : String := "adirf-server"

def FRIDA_BINARY_PATH : String := ANDROID_DEVICE_HTK_PATH ++ "/" ++ FRIDA_BINARY_NAME

def ALL_X_PERMS : Nat := 0o111

/-- A directory entry as returned by `deviceClient.readdir`: a name and a
permission/mode word. -/
structure DirEntry where
  name : String
  mode : Nat
deriving DecidableEq, Repr

/-- Side effects of the port probe on a successfully opened connection, in
order: `conn.on('error', () => \x7b\x7d)` then `conn.end()`. -/
inductive ConnEffect
  | suppressErrors
  | endConnection
deriving DecidableEq, Repr

/-- `isDevicePortOpen`: given the outcome of `deviceClient.openTcp(port)`,
returns `true` when the connection opened (after suppressing later socket
errors and closing it), and `false` when the attempt itself failed.
Also returns the connection effects performed. -/
def isDevicePortOpen (openTcpResult : Except String Unit) :
    Bool × List ConnEffect :=
  match openTcpResult with
  | .ok _ =>
    -- If the connection opened at all, then something is listening...
    (true, [ConnEffect.suppressErrors, ConnEffect.endConnection])
  | .error _ =>
    -- If the port is closed, we jump straight to the error state instead
    (false, [])

/-- `isFridaInstalled`: lists `ANDROID_DEVICE_HTK_PATH` and returns true iff
an entry named `FRIDA_BINARY_NAME` with some executable bit set exists;
any readdir error collapses to `false` via `.catch(() => false)`. -/
def isFridaInstalled (readdirResult : Except String (List DirEntry)) : Bool :=
  match readdirResult with
  | .ok entries =>
    entries.any (fun entry =>
      entry.name == FRIDA_BINARY_NAME &&
      (entry.mode &&& ALL_X_PERMS) != 0)
  | .error _ => false

/-- Per-device oracle for the collaborator calls made by `getHostStatus`:
the outcome of `openTcp` on each port, the outcome of `readdir` on the
well-known directory, and the opaque `isProbablyRooted` boolean. -/
structure DeviceOracle where
  openTcp : Nat → Except String Unit
  readdir : Except String (List DirEntry)
  rooted : Bool

/-- The checks `getHostStatus` can perform against a device, recorded in the
order they are issued. -/
inductive Check
  | portProbe (port : Nat)
  | installedCheck
  | rootedCheck
deriving DecidableEq, Repr

/-- `getHostStatus`, instrumented with the list of checks performed. The two
port probes are issued together (`Promise.all`), so both always appear;
the installed and rooted checks appear only when control reaches them. -/
def getHostStatusTraced (deviceId : String) (d : DeviceOracle) :
    FridaHost × List Check :=
  let defaultPortOpen := (isDevicePortOpen (d.openTcp FRIDA_DEFAULT_PORT)).1
  let alternatePortOpen := (isDevicePortOpen (d.openTcp FRIDA_ALTERNATE_PORT)).1
  let portChecks := [Check.portProbe FRIDA_DEFAULT_PORT,
                     Check.portProbe FRIDA_ALTERNATE_PORT]
  if defaultPortOpen || alternatePortOpen then
    ({ id := deviceId, name := deviceId, type := "android",
       state := FridaState.available }, portChecks)
  else if isFridaInstalled d.readdir then
    ({ id := deviceId, name := deviceId, type := "android",
       state := FridaState.launchRequired },
     portChecks ++ [Check.installedCheck])
  else if d.rooted then
    ({ id := deviceId, name := deviceId, type := "android",
       state := FridaState.setupRequired },
     portChecks ++ [Check.installedCheck, Check.rootedCheck])
  else
    -- No Frida - looks unrooted - nothing we can do.
    ({ id := deviceId, name := deviceId, type := "android",
       state := FridaState.unavailable },
     portChecks ++ [Check.installedCheck, Check.rootedCheck])

/-- `getHostStatus`: the host value alone. -/
def getHostStatus (deviceId : String) (d : DeviceOracle) : FridaHost :=
  (getHostStatusTraced deviceId d).1

/-- `getAndroidFridaHosts`: one `getHostStatus` per connected device, results
collected in device order. -/
def getAndroidFridaHosts (devices : List String)
    (oracle : String → DeviceOracle) : List FridaHost :=
  devices.map (fun deviceId => getHostStatus deviceId (oracle deviceId))

/-- The spec's four-state precedence, written from the spec's words
(§4.3): port open → available; else installed → launch-required; else
rooted → setup-required; else unavailable. Used to compare against the
code's `getHostStatus`. -/
def specResolvedState (defaultPortOpen alternatePortOpen installed rooted :
    Bool) : FridaState :=
  if defaultPortOpen || alternatePortOpen then FridaState.available
  else if installed then FridaState.launchRequired
  else if rooted then FridaState.setupRequired
  else FridaState.unavailable

/-- `ABI_ARCH_MAP`: the static mapping from device-reported ABI strings to
canonical architecture tags, in declaration order. -/
def ABI_ARCH_MAP : List (String × String) :=
  [("arm64-v8a", "arm64"),
   ("armeabi", "arm"),
   ("armabi-v7a", "arm"),
   ("x86", "x86"),
   ("x86_64", "x86_64")]

/-- `Object.keys(ABI_ARCH_MAP).includes(abi)`. -/
def isKnownAbi (abi : String) : Bool :=
  (ABI_ARCH_MAP.map Prod.fst).contains abi

/-- `ABI_ARCH_MAP[abi]` (total on known ABIs; defaults are never reached). -/
def abiArch (abi : String) : String :=
  ((ABI_ARCH_MAP.find? (fun p => p.1 == abi)).map Prod.snd).getD ""

/-- Device-affecting effects of `setupAndroidHost`, in order: fetching the
architecture-specific server binary, then pushing it to the device. -/
inductive SetupEffect
  | fetchBinary (version : String) (platform : String) (arch : String)
  | push (path : String) (mode : Nat)
deriving DecidableEq, Repr

def FRIDA_VERSION : String := "16.1.7"

/-- The JS `string.split(',')` used on the ABI list property, over the
character list ("".split(',') is [""]). -/
def splitOnCommaChars : List Char → List (List Char)
  | [] => [[]]
  | c :: rest =>
    match splitOnCommaChars rest with
    | [] => [[]]
    | cur :: done => if c = ',' then [] :: cur :: done else (c :: cur) :: done

/-- The JS `string.split(',')` on strings. -/
def splitOnComma (s : String) : List String :=
  (splitOnCommaChars s.data).map String.mk

/-- The JS `string.trim()`: strip leading and trailing whitespace. -/
def jsTrim (s : String) : String :=
  String.mk
    (((s.data.dropWhile Char.isWhitespace).reverse.dropWhile
      Char.isWhitespace).reverse)

/-- `supportedAbis` derivation in `setupAndroidHost`:
`(props['ro.product.cpu.abilist']?.split(',') ?? [props['ro.product.cpu.abi']]).map(abi => abi.trim())`.
`none` marks the path where both properties are absent (the `.trim()` call
on `undefined` raises a TypeError in the source). -/
def getSupportedAbis (deviceProperties : String → Option String) :
    Option (List String) :=
  match deviceProperties "ro.product.cpu.abilist" with
  | some abilist => some ((splitOnComma abilist).map jsTrim)
  | none =>
    (deviceProperties "ro.product.cpu.abi").map (fun abi => [jsTrim abi])

/-- `setupAndroidHost`: selects the first recognized ABI from the device's
reported list, fails with an unrecognized-architecture error when none
match, otherwise fetches the matching server binary and pushes it to
`FRIDA_BINARY_PATH` with mode `0o555`. Returns the outcome together with
the device-affecting effects actually performed. -/
def setupAndroidHost (deviceProperties : String → Option String) :
    Except String Unit × List SetupEffect :=
  match getSupportedAbis deviceProperties with
  | none => (.error "TypeError: Cannot read properties of undefined", [])
  | some supportedAbis =>
    match supportedAbis.find? isKnownAbi with
    | none =>
      (.error ("Did not recognize any device ABIs from " ++
        String.intercalate "," supportedAbis), [])
    | some firstKnownAbi =>
      let deviceArch := abiArch firstKnownAbi
      (.ok (),
       [SetupEffect.fetchBinary FRIDA_VERSION "android" deviceArch,
        SetupEffect.push FRIDA_BINARY_PATH 0o555])

/-- Modelled from the spec: `waitUntil(delay, maxTries, test)` from
`src/util/promise` (not included in the sources). Per §4.5, it repeatedly
invokes the boolean probe up to `maxTries` times, sleeping `delay` between
attempts, succeeding as soon as a probe returns true and raising a
terminal timeout error once the attempt budget is exhausted. `test i` is
the probe's result at attempt `i`. -/
def waitUntil (delay : Nat) (maxTries : Nat) (test : Nat → Bool) :
    Except String Unit :=
  let _ := delay
  if (List.range maxTries).any test then .ok ()
  else .error "Wait timed out"

/-- Number of probe attempts `waitUntil` actually executes: up to and
including the first successful attempt, else the whole budget. -/
def attemptsRun (maxTries : Nat) (test : Nat → Bool) : Nat :=
  match (List.range maxTries).findIdx? test with
  | some i => i + 1
  | none => maxTries

/-- The readiness probe inside `launchAndroidHost`: resolves the host status
and compares it to `available`; any error is caught, logged, and treated
as `false`. `statusAt i` is the outcome of `getHostStatus` at attempt
`i`. -/
def launchProbe (statusAt : Nat → Except String FridaState) (i : Nat) :
    Bool :=
  match statusAt i with
  | .ok st => st == FridaState.available
  | .error _ => false

/-- `launchAndroidHost`: needs a root command (else an access error); then
starts the server and polls readiness via `waitUntil 500 10`. Probe
errors and the final timeout error are logged (`console.log`); on timeout
a launch-failed error naming the host is thrown. Returns the outcome and
the log lines emitted. -/
def launchAndroidHost (hostId : String) (runAsRoot : Option String)
    (statusAt : Nat → Except String FridaState) :
    Except String Unit × List String :=
  match runAsRoot with
  | none => (.error "Couldn't get root access to launch Frida Server", [])
  | some _ =>
    let probe := launchProbe statusAt
    let probeLogs := (List.range (attemptsRun 10 probe)).filterMap
      (fun i => match statusAt i with
        | .error e => some e
        | .ok _ => none)
    match waitUntil 500 10 probe with
    | .ok _ => (.ok (), probeLogs)
    | .error e =>
      (.error ("Failed to launch Frida server for " ++ hostId),
       probeLogs ++ [e])

/-- The Provisioning Pipeline operations the façade can dispatch to. -/
inductive PipelineOp
  | setup (hostId : String)
  | launch (hostId : String)
  | intercept (hostId : String) (targetId : String)
deriving DecidableEq, Repr

/-- The `options` argument of `FridaAndroidInterceptor.activate`. The action
tag is `Option String` so that an absent tag (`undefined`, rendered as
`(none)` by `?? '(none)'`) is representable alongside unknown tags. -/
structure ActivateOptions where
  action : Option String
  hostId : String := ""
  targetId : String := ""
deriving DecidableEq, Repr

/-- `FridaAndroidInterceptor.activate`: dispatches on the action tag to the
matching pipeline operation, and rejects any other tag with an
unknown-action error. Returns the outcome of dispatch together with the
pipeline operations invoked. -/
def activate (proxyPort : Nat) (options : ActivateOptions) :
    Except String Unit × List PipelineOp :=
  let _ := proxyPort
  if options.action == some "setup" then
    (.ok (), [PipelineOp.setup options.hostId])
  else if options.action == some "launch" then
    (.ok (), [PipelineOp.launch options.hostId])
  else if options.action == some "intercept" then
    (.ok (), [PipelineOp.intercept options.hostId options.targetId])
  else
    (.error ("Unknown Frida interception command: " ++
      (options.action.getD "(none)")), [])

/-- The single-flight cache state of `FridaAndroidInterceptor`:
`slot` is `_fridaTargetsPromise` (the in-flight discovery, identified by a
serial number), `started` counts discovery operations started so far. -/
structure CacheState where
  slot : Option Nat := none
  started : Nat := 0
deriving DecidableEq, Repr

/-- Events the cache reacts to: a caller entering `getFridaHosts`, and the
in-flight discovery promise settling (success or failure), which runs the
`.finally` handler. -/
inductive CacheEvent
  | call
  | settle
deriving DecidableEq, Repr

/-- One step of the cache: `call` returns the discovery operation the caller
awaits (starting a fresh one only when the slot is empty); `settle` clears
the slot (`this._fridaTargetsPromise = undefined`). -/
def cacheStep (s : CacheState) (e : CacheEvent) : CacheState × Option Nat :=
  match e with
  | .call =>
    match s.slot with
    | none =>
      -- We cache the targets lookup whilst it's active, so that concurrent
      -- calls all just run one lookup and return the same result.
      ({ slot := some s.started, started := s.started + 1 }, some s.started)
    | some d => (s, some d)
  | .settle => ({ s with slot := none }, none)

/-- `n` back-to-back `call` events with no settle in between: the final state
and the discovery operation each caller awaits, in order. -/
def runCalls (s : CacheState) : Nat → CacheState × List Nat
  | 0 => (s, [])
  | n + 1 =>
    let (s', d) := cacheStep s CacheEvent.call
    let (s'', ds) := runCalls s' n
    (s'', d.toList ++ ds)

/-- A concrete device oracle for witnesses: both ports closed, the
well-known directory missing, not rooted. -/
def sampleOracle : DeviceOracle where
  openTcp := fun _ => Except.error "closed"
  readdir := Except.error "ENOENT"
  rooted := false

/-- C1: `getHostStatus` resolves exactly the spec's four-state precedence:
`available` when either instrumentation port is open, else
`launch-required` when Frida is installed, else `setup-required` when the
device is probably rooted, else `unavailable`. -/
theorem getHostStatus_state_precedence (deviceId : String) (d : DeviceOracle) :
    (getHostStatus deviceId d).state =
      specResolvedState
        (isDevicePortOpen (d.openTcp FRIDA_DEFAULT_PORT)).1
        (isDevicePortOpen (d.openTcp FRIDA_ALTERNATE_PORT)).1
        (isFridaInstalled d.readdir)
        d.rooted := by
  rcases hd : (isDevicePortOpen (d.openTcp FRIDA_DEFAULT_PORT)).1 <;>
    rcases ha : (isDevicePortOpen (d.openTcp FRIDA_ALTERNATE_PORT)).1 <;>
    rcases hi : isFridaInstalled d.readdir <;>
    rcases hr : d.rooted <;>
    simp [getHostStatus, getHostStatusTraced, specResolvedState, hd, ha, hi, hr]

/-- C6: within one device's resolution, both port probes are always issued
(first, as a pair), the installed check runs exactly when both port
probes were negative, and the rooted check runs exactly when the
installed check additionally was negative. -/
theorem getHostStatus_check_gating (deviceId : String) (d : DeviceOracle) :
    ((getHostStatusTraced deviceId d).2).take 2 =
      [Check.portProbe FRIDA_DEFAULT_PORT,
       Check.portProbe FRIDA_ALTERNATE_PORT] ∧
    (Check.installedCheck ∈ (getHostStatusTraced deviceId d).2 ↔
      ((isDevicePortOpen (d.openTcp FRIDA_DEFAULT_PORT)).1 = false ∧
       (isDevicePortOpen (d.openTcp FRIDA_ALTERNATE_PORT)).1 = false)) ∧
    (Check.rootedCheck ∈ (getHostStatusTraced deviceId d).2 ↔
      ((isDevicePortOpen (d.openTcp FRIDA_DEFAULT_PORT)).1 = false ∧
       (isDevicePortOpen (d.openTcp FRIDA_ALTERNATE_PORT)).1 = false ∧
       isFridaInstalled d.readdir = false)) := by
  rcases hd : (isDevicePortOpen (d.openTcp FRIDA_DEFAULT_PORT)).1 <;>
    rcases ha : (isDevicePortOpen (d.openTcp FRIDA_ALTERNATE_PORT)).1 <;>
    rcases hi : isFridaInstalled d.readdir <;>
    rcases hr : d.rooted <;>
    simp [getHostStatusTraced, hd, ha, hi, hr]

/-- Witness for C6 at a concrete oracle with both ports closed: the
installed check is issued. -/
theorem getHostStatus_check_gating_witness :
    Check.installedCheck ∈ (getHostStatusTraced "emulator-5554" sampleOracle).2 :=
  (getHostStatus_check_gating "emulator-5554" sampleOracle).2.1.mpr ⟨rfl, rfl⟩

/-- C7: the port probe never throws: it answers `true` exactly when the TCP
connection opened (then suppresses later socket errors and closes the
connection), and every failed connection attempt collapses to `false`. -/
theorem isDevicePortOpen_collapses_failures (r : Except String Unit) :
    ((isDevicePortOpen r).1 = true ↔ r = Except.ok ()) ∧
    (∀ e, (isDevicePortOpen (Except.error e)).1 = false) ∧
    ((isDevicePortOpen r).1 = true →
      (isDevicePortOpen r).2 =
        [ConnEffect.suppressErrors, ConnEffect.endConnection]) := by
  rcases r with u | e
  · rcases u; simp [isDevicePortOpen]
  · simp [isDevicePortOpen]

/-- Witness for C7 at a concrete refused connection: the probe returns
`false`. -/
theorem isDevicePortOpen_collapses_failures_witness :
    (isDevicePortOpen (Except.error "ECONNREFUSED")).1 = false :=
  (isDevicePortOpen_collapses_failures
    (Except.error "ECONNREFUSED")).2.1 "ECONNREFUSED"

/-- C10: every host produced by discovery has `name` equal to its `id`,
`type` equal to `"android"`, and no populated `targets` field. -/
theorem discovered_hosts_shape (devices : List String)
    (oracle : String → DeviceOracle) (h : FridaHost)
    (hmem : h ∈ getAndroidFridaHosts devices oracle) :
    h.name = h.id ∧ h.type = "android" ∧ h.targets = none := by
  rw [getAndroidFridaHosts, List.mem_map] at hmem
  obtain ⟨dev, -, rfl⟩ := hmem
  rcases hd : (isDevicePortOpen ((oracle dev).openTcp FRIDA_DEFAULT_PORT)).1 <;>
    rcases ha : (isDevicePortOpen ((oracle dev).openTcp FRIDA_ALTERNATE_PORT)).1 <;>
    rcases hi : isFridaInstalled (oracle dev).readdir <;>
    rcases hr : (oracle dev).rooted <;>
    simp [getHostStatus, getHostStatusTraced, hd, ha, hi, hr]

/-- Witness for C10 at a concrete one-device discovery. -/
theorem discovered_hosts_shape_witness :
    (getHostStatus "emulator-5554" sampleOracle).name =
      (getHostStatus "emulator-5554" sampleOracle).id ∧
    (getHostStatus "emulator-5554" sampleOracle).type = "android" ∧
    (getHostStatus "emulator-5554" sampleOracle).targets = none :=
  discovered_hosts_shape ["emulator-5554"] (fun _ => sampleOracle) _
    (by simp [getAndroidFridaHosts])

/-- C3: when the device's derived ABI list contains a recognized ABI,
`setupAndroidHost` selects the canonical architecture of the first
recognized ABI in list order (skipping unrecognized entries), fetches
that binary and pushes it. -/
theorem setup_selects_first_recognized_abi
    (props : String → Option String) (abis : List String) (a : String)
    (habis : getSupportedAbis props = some abis)
    (hfind : abis.find? isKnownAbi = some a) :
    setupAndroidHost props =
      (Except.ok (),
       [SetupEffect.fetchBinary FRIDA_VERSION "android" (abiArch a),
        SetupEffect.push FRIDA_BINARY_PATH 0o555]) := by
  simp [setupAndroidHost, habis, hfind]

/-- Witness for C3: a device reporting `"mips,arm64-v8a"` yields architecture
`arm64` — the unrecognized leading `mips` entry is skipped. -/
theorem setup_selects_first_recognized_abi_witness :
    abiArch "arm64-v8a" = "arm64" ∧
    setupAndroidHost
      (fun k => if k = "ro.product.cpu.abilist"
                then some "mips,arm64-v8a" else none) =
      (Except.ok (),
       [SetupEffect.fetchBinary FRIDA_VERSION "android" "arm64",
        SetupEffect.push FRIDA_BINARY_PATH 0o555]) :=
  ⟨rfl,
   setup_selects_first_recognized_abi
     (fun k => if k = "ro.product.cpu.abilist"
               then some "mips,arm64-v8a" else none)
     ["mips", "arm64-v8a"] "arm64-v8a" rfl rfl⟩

/-- C4: when none of the device's derived ABIs is recognized,
`setupAndroidHost` fails with an unrecognized-architecture error naming
the reported ABI list, and performs no binary fetch and no push. -/
theorem setup_unrecognized_abis_fails
    (props : String → Option String) (abis : List String)
    (habis : getSupportedAbis props = some abis)
    (hnone : abis.find? isKnownAbi = none) :
    setupAndroidHost props =
      (Except.error ("Did not recognize any device ABIs from " ++
        String.intercalate "," abis), []) := by
  simp [setupAndroidHost, habis, hnone]

/-- Witness for C4: a device reporting only `"mips,armeabi-v7a"` fails with
the error naming both ABIs, with no effects performed. -/
theorem setup_unrecognized_abis_fails_witness :
    setupAndroidHost
      (fun k => if k = "ro.product.cpu.abilist"
                then some "mips,armeabi-v7a" else none) =
      (Except.error "Did not recognize any device ABIs from mips,armeabi-v7a",
       []) :=
  setup_unrecognized_abis_fails
    (fun k => if k = "ro.product.cpu.abilist"
              then some "mips,armeabi-v7a" else none)
    ["mips", "armeabi-v7a"] rfl rfl

/-- C9: the ABI map's keys are exactly the five listed strings — the
standard 32-bit ARM v7 spelling `armeabi-v7a` is not among them (the map
has `armabi-v7a` instead) — so a device reporting exactly
`["armeabi-v7a"]` fails setup with the unrecognized-architecture
error. -/
theorem armeabi_v7a_is_unrecognized :
    ABI_ARCH_MAP.map Prod.fst =
      ["arm64-v8a", "armeabi", "armabi-v7a", "x86", "x86_64"] ∧
    isKnownAbi "armeabi-v7a" = false ∧
    setupAndroidHost
      (fun k => if k = "ro.product.cpu.abilist"
                then some "armeabi-v7a" else none) =
      (Except.error "Did not recognize any device ABIs from armeabi-v7a",
       []) :=
  ⟨rfl, rfl, rfl⟩

/-- C8: `activate` with an action tag outside `setup`/`launch`/`intercept`
rejects with an unknown-action error naming the tag, and invokes no
pipeline operation. -/
theorem activate_unknown_action_rejects (proxyPort : Nat)
    (options : ActivateOptions)
    (h1 : options.action ≠ some "setup")
    (h2 : options.action ≠ some "launch")
    (h3 : options.action ≠ some "intercept") :
    activate proxyPort options =
      (Except.error ("Unknown Frida interception command: " ++
        options.action.getD "(none)"), []) := by
  simp [activate, h1, h2, h3]

/-- Witness for C8: an unknown `restart` action rejects without invoking any
pipeline stage. -/
theorem activate_unknown_action_rejects_witness :
    activate 8000 { action := some "restart", hostId := "emulator-5554" } =
      (Except.error "Unknown Frida interception command: restart", []) :=
  activate_unknown_action_rejects 8000
    { action := some "restart", hostId := "emulator-5554" }
    (by decide) (by decide) (by decide)

/-- C5: when the readiness probe never observes `available` across the 10
probe attempts, `launchAndroidHost` fails with a launch error naming the
host, and every probe error raised along the way is reported in the
logs. -/
theorem launch_readiness_timeout (hostId root : String)
    (statusAt : Nat → Except String FridaState)
    (hnever : ∀ i, i < 10 → launchProbe statusAt i = false) :
    (launchAndroidHost hostId (some root) statusAt).1 =
      Except.error ("Failed to launch Frida server for " ++ hostId) ∧
    ∀ i, i < 10 → ∀ e, statusAt i = Except.error e →
      e ∈ (launchAndroidHost hostId (some root) statusAt).2 := by
  have hany : (List.range 10).any (launchProbe statusAt) = false := by
    simp only [List.any_eq_false]
    intro x hx
    simp [hnever x (List.mem_range.mp hx)]
  have hwait : waitUntil 500 10 (launchProbe statusAt) =
      Except.error "Wait timed out" := by
    simp [waitUntil, hany]
  have hrun : attemptsRun 10 (launchProbe statusAt) = 10 := by
    unfold attemptsRun
    have hfind : (List.range 10).findIdx? (launchProbe statusAt) = none := by
      rw [List.findIdx?_eq_none_iff]
      intro x hx
      exact hnever x (List.mem_range.mp hx)
    rw [hfind]
  refine ⟨by simp [launchAndroidHost, hwait], ?_⟩
  intro i hi e he
  simp only [launchAndroidHost, hwait, hrun]
  rw [List.mem_append]
  left
  rw [List.mem_filterMap]
  exact ⟨i, List.mem_range.mpr hi, by rw [he]⟩

/-- Witness for C5: a host whose status probe always errors makes the launch
fail after the budget, and the probe error appears in the logs. -/
theorem launch_readiness_timeout_witness :
    (launchAndroidHost "emulator-5554" (some "su")
      (fun _ => Except.error "connection refused")).1 =
      Except.error "Failed to launch Frida server for emulator-5554" ∧
    "connection refused" ∈
      (launchAndroidHost "emulator-5554" (some "su")
        (fun _ => Except.error "connection refused")).2 := by
  have h := launch_readiness_timeout "emulator-5554" "su"
    (fun _ => Except.error "connection refused") (fun _ _ => rfl)
  exact ⟨h.1, h.2 0 (by decide) "connection refused" rfl⟩

/-- From an occupied slot, further calls change nothing and every caller is
handed the discovery already in flight. -/
theorem runCalls_slot_occupied (d : Nat) :
    ∀ (n : Nat) (s : CacheState), s.slot = some d →
      runCalls s n = (s, List.replicate n d) := by
  intro n
  induction n with
  | zero => intro s _; rfl
  | succ m ih =>
    intro s hs
    simp [runCalls, cacheStep, hs, ih s hs, List.replicate_succ]

/-- C2: from an empty cache slot, `n ≥ 1` back-to-back callers start exactly
one discovery operation and all receive that same operation; settling
clears the slot; and from any cleared slot the next call starts a fresh
discovery (the operation counter advances). -/
theorem single_flight_discovery (s : CacheState) (n : Nat)
    (hempty : s.slot = none) (hn : 1 ≤ n) :
    (runCalls s n).2 = List.replicate n s.started ∧
    (runCalls s n).1.started = s.started + 1 ∧
    (cacheStep (runCalls s n).1 CacheEvent.settle).1.slot = none ∧
    (∀ s2 : CacheState, s2.slot = none →
      (cacheStep s2 CacheEvent.call).2 = some s2.started ∧
      (cacheStep s2 CacheEvent.call).1.started = s2.started + 1) := by
  obtain ⟨m, rfl⟩ : ∃ m, n = m + 1 := ⟨n - 1, (Nat.succ_pred_eq_of_pos hn).symm⟩
  have hstep : cacheStep s CacheEvent.call =
      ({ slot := some s.started, started := s.started + 1 }, some s.started) := by
    simp [cacheStep, hempty]
  have hrest := runCalls_slot_occupied s.started m
    { slot := some s.started, started := s.started + 1 } rfl
  refine ⟨?_, ?_, ?_, ?_⟩
  · simp [runCalls, hstep, hrest, List.replicate_succ]
  · simp [runCalls, hstep, hrest]
  · simp [cacheStep]
  · intro s2 hs2
    simp [cacheStep, hs2]

/-- Witness for C2: three concurrent callers from a fresh interceptor share
discovery operation 0 and exactly one operation is started. -/
theorem single_flight_discovery_witness :
    (runCalls { slot := none, started := 0 } 3).2 = [0, 0, 0] ∧
    (runCalls { slot := none, started := 0 } 3).1.started = 1 := by
  have h := single_flight_discovery { slot := none, started := 0 } 3 rfl
    (by decide)
  exact ⟨h.1, h.2.1⟩

end Frida
